import Mathlib

/-!
Shallow embedding of the chapter-generation pipeline of the Ghostwriter
book-authoring application, together with proofs about its retry policy,
error classification, resumability, persistence and wake-lock handling.

The embedded functions mirror, line for line:
  * `src/services/gemini.ts` — `isFatalError` and the retry loop of
    `writeChapter`;
  * `src/App.tsx` — `startBookGeneration` (chapter initialization, skip
    check, per-chapter success / failure persistence, fatal-error break,
    wake-lock acquire / release and the `generatingProjectId` flag),
    `handleUpdateProject`, `requestWakeLock`, `releaseWakeLock`;
  * `src/components/ProjectEditor.tsx` — the auto-start effect condition.

The external generative backend is abstracted as an oracle
`gen : Nat → Nat → GenOutcome` giving, for a chapter number and a 0-based
attempt index, either a response (with optional text, as `response.text`
may be absent) or a thrown error carrying a message and optional HTTP
status.  Prompt construction (outline, sources, style instructions) does
not influence control flow and is folded into the oracle.
-/

/-- Chapter entry of a book outline (`types.ts`, used in `gemini.ts`). -/
structure ChapterOutline where
  chapterNumber : Nat
  title : String
  summary : String
deriving DecidableEq, Repr

/-- Book outline: title, description and chapter list. -/
structure BookOutline where
  title : String
  description : String
  chapters : List ChapterOutline
  coverImage : Option String := none
deriving DecidableEq, Repr

/-- A chapter result as stored on the project: `ChapterContent` in the
source, with its `isGenerating` boolean flag. -/
structure ChapterContent where
  chapterNumber : Nat
  title : String
  content : String
  isGenerating : Bool
deriving DecidableEq, Repr

/-- A project record (`BookProject` in the source). -/
structure BookProject where
  id : String
  title : String
  lastModified : Nat
  sources : List String
  outline : Option BookOutline
  chapters : List ChapterContent
  currentStep : Nat
  seriesId : Option String := none
  seriesIndex : Option Nat := none
deriving DecidableEq, Repr

/-- An error thrown by the generative backend: `message` and an optional
HTTP `status` code (JavaScript errors may lack a status field). -/
structure GenError where
  message : String
  status : Option Nat
deriving DecidableEq, Repr

/-- One backend call either returns a response whose `text` may be absent,
or throws an error. -/
inductive GenOutcome where
  | ok (text : Option String)
  | err (e : GenError)
deriving DecidableEq, Repr

/-- `startsWithChars l pat` : `pat` is an initial segment of `l`. -/
def startsWithChars : List Char → List Char → Bool
  | _, [] => true
  | [], _ :: _ => false
  | a :: l, b :: m => a == b && startsWithChars l m

/-- `containsChars l pat` : `pat` occurs contiguously inside `l`. -/
def containsChars : List Char → List Char → Bool
  | [], pat => startsWithChars [] pat
  | a :: l, pat => startsWithChars (a :: l) pat || containsChars l pat

/-- JavaScript `String.prototype.includes`. -/
def jsIncludes (s pat : String) : Bool :=
  containsChars s.toList pat.toList

/-- `isFatalError` from `src/services/gemini.ts` lines 13–20: status 403 or
401, or a message containing `leaked`, `API key` or `PERMISSION_DENIED`. -/
def isFatalError (e : GenError) : Bool :=
  e.status == some 403 || e.status == some 401 ||
    (jsIncludes e.message "leaked" || jsIncludes e.message "API key" ||
      jsIncludes e.message "PERMISSION_DENIED")

/-- The fatal check of the pipeline's catch block, `src/App.tsx` line 189:
`e.message?.includes('leaked') || e.message?.includes('PERMISSION_DENIED')
|| e.status === 403`.  Unlike `isFatalError` it accepts neither status 401
nor an `API key` message. -/
def appIsFatal (e : GenError) : Bool :=
  jsIncludes e.message "leaked" || jsIncludes e.message "PERMISSION_DENIED" ||
    e.status == some 403

/-- The retry-exhaustion error thrown at `src/services/gemini.ts` line 233:
`new Error(\x60Failed to write chapter N\x60)`; it has no status field. -/
def failedChapterError (chapterNumber : Nat) : GenError :=
  { message := "Failed to write chapter " ++ toString chapterNumber, status := none }

/-- `maxAttempts` of the retry loop, `src/services/gemini.ts` line 213. -/
def maxAttempts : Nat := 3

instance {ε α : Type} [DecidableEq ε] [DecidableEq α] : DecidableEq (Except ε α) := fun x y =>
  match x, y with
  | Except.ok a, Except.ok b =>
    if h : a = b then Decidable.isTrue (by rw [h])
    else Decidable.isFalse (by intro hh; cases hh; exact h rfl)
  | Except.error a, Except.error b =>
    if h : a = b then Decidable.isTrue (by rw [h])
    else Decidable.isFalse (by intro hh; cases hh; exact h rfl)
  | Except.ok _, Except.error _ => Decidable.isFalse (by intro hh; cases hh)
  | Except.error _, Except.ok _ => Decidable.isFalse (by intro hh; cases hh)

/-- Result of one `writeChapter` call: the returned text or thrown error,
the backoff sleeps performed (in milliseconds, in order), and the number of
backend calls made. -/
structure WCResult where
  result : Except GenError String
  sleeps : List Nat
  calls : Nat
deriving DecidableEq, Repr

/-- The retry loop of `writeChapter`, `src/services/gemini.ts` lines
212–238.  `attempt` is the loop counter (starting at 0), `fuel` the number
of loop iterations still admitted by `while (attempt < maxAttempts)`
(`fuel = maxAttempts - attempt`).  A response returns `response.text || ""`
immediately; a thrown fatal error propagates at once; otherwise the counter
increments, exhaustion throws `failedChapterError`, and a remaining attempt
sleeps `1000 * 2 ^ attempt` milliseconds before retrying. -/
def writeChapterAux (gen : Nat → GenOutcome) (chapterNumber : Nat) :
    Nat → Nat → WCResult
  | _, 0 => ⟨Except.ok "", [], 0⟩
  | attempt, fuel + 1 =>
    match gen attempt with
    | GenOutcome.ok t => ⟨Except.ok (t.getD ""), [], 1⟩
    | GenOutcome.err e =>
      if isFatalError e then
        ⟨Except.error e, [], 1⟩
      else if maxAttempts ≤ attempt + 1 then
        ⟨Except.error (failedChapterError chapterNumber), [], 1⟩
      else
        let r := writeChapterAux gen chapterNumber (attempt + 1) fuel
        ⟨r.result, (1000 * 2 ^ (attempt + 1)) :: r.sleeps, r.calls + 1⟩

/-- `writeChapter` for a single chapter, abstracted over the backend oracle
`gen : attempt ↦ outcome`: the retry loop entered with `attempt = 0`. -/
def writeChapter (gen : Nat → GenOutcome) (chapterNumber : Nat) : WCResult :=
  writeChapterAux gen chapterNumber 0 maxAttempts

/-- The chapter update applied by both persistence writes of the loop
(`src/App.tsx` lines 171–175 and 198–201): the entry matching the processed
number gets the new content and `isGenerating: false`; others are kept. -/
def chapUpdate (n : Nat) (content : String) (c : ChapterContent) : ChapterContent :=
  if c.chapterNumber == n then { c with content := content, isGenerating := false } else c

/-- The success persistence write, `src/App.tsx` lines 168–178: a
functional update on the latest store replacing only the matching chapter
of the matching project and bumping `lastModified`. -/
def applySuccess (store : List BookProject) (projectId : String) (n : Nat)
    (content : String) (now : Nat) : List BookProject :=
  store.map fun p =>
    if p.id == projectId then
      { p with chapters := p.chapters.map (chapUpdate n content), lastModified := now }
    else p

/-- The failure persistence write, `src/App.tsx` lines 196–204: like the
success write but leaving `lastModified` alone. -/
def applyFailure (store : List BookProject) (projectId : String) (n : Nat)
    (content : String) : List BookProject :=
  store.map fun p =>
    if p.id == projectId then
      { p with chapters := p.chapters.map (chapUpdate n content) }
    else p

/-- The resumption skip check, `src/App.tsx` lines 153–156:
`existingChap && existingChap.content && !existingChap.isGenerating`
(a non-empty string is truthy). -/
def shouldSkip (cc : List ChapterContent) (n : Nat) : Bool :=
  match cc.find? (fun c => c.chapterNumber == n) with
  | some c => !(c.content == "") && !c.isGenerating
  | none => false

/-- `handleUpdateProject`, `src/App.tsx` lines 274–276: replace the project
with matching id by the given record. -/
def handleUpdateProject (store : List BookProject) (updated : BookProject) :
    List BookProject :=
  store.map fun p => if p.id == updated.id then updated else p

/-- Chapter initialization at run start, `src/App.tsx` lines 137–142: the
stored chapters are kept as they are when non-empty; only an empty array is
replaced by one all-generating entry per outline chapter. -/
def initializeChapters (project : BookProject) (outline : BookOutline) :
    List ChapterContent :=
  if 0 < project.chapters.length then project.chapters
  else outline.chapters.map fun c =>
    { chapterNumber := c.chapterNumber, title := c.title, content := "", isGenerating := true }

/-- The run-start persistence write, `src/App.tsx` line 145: the whole
project record built from the snapshot captured at run entry, with the
initialized chapter array, is written through `handleUpdateProject`. -/
def initialPersist (store : List BookProject) (snapshot : BookProject)
    (outline : BookOutline) : List BookProject :=
  handleUpdateProject store { snapshot with chapters := initializeChapters snapshot outline }

/-- Pipeline state: the project store, the active-run flag, the wake-lock
sentinel ref with acquire / release counters, and the observable traces of
the run (alerts shown, backoff sleeps, chapters for which the generator was
invoked, in order). -/
structure PState where
  projects : List BookProject
  generatingProjectId : Option String
  wakeLock : Option Unit
  acquires : Nat
  releases : Nat
  alerts : List String
  sleeps : List Nat
  invoked : List Nat
deriving DecidableEq, Repr

/-- `requestWakeLock`, `src/App.tsx` lines 108–116: best-effort; when the
capability is unavailable or the request throws, the error is swallowed and
the run proceeds with no sentinel. -/
def requestWakeLock (avail : Bool) (s : PState) : PState :=
  if avail then { s with wakeLock := some (), acquires := s.acquires + 1 } else s

/-- `releaseWakeLock`, `src/App.tsx` lines 118–127: release the sentinel
if one is held, then clear the ref. -/
def releaseWakeLock (s : PState) : PState :=
  match s.wakeLock with
  | some _ => { s with wakeLock := none, releases := s.releases + 1 }
  | none => s

/-- The chapter loop of `startBookGeneration`, `src/App.tsx` lines 151–206.
Per outline chapter, in order: the skip check (`continue`), the fatal break,
then one `writeChapter` call whose outcome is persisted — success through
`applySuccess` (also updating the loop's local chapter list), failure
through `applyFailure` with the fatal or transient placeholder, a fatal
error additionally raising the alert and setting the break flag. -/
def genLoop (gen : Nat → Nat → GenOutcome) (projectId : String) (now : Nat) :
    List ChapterOutline → PState → List ChapterContent → Bool → PState
  | [], s, _, _ => s
  | ch :: rest, s, cc, hasFatalError =>
    if shouldSkip cc ch.chapterNumber then
      genLoop gen projectId now rest s cc hasFatalError
    else if hasFatalError then
      s
    else
      let w := writeChapter (gen ch.chapterNumber) ch.chapterNumber
      let s1 : PState :=
        { s with invoked := s.invoked ++ [ch.chapterNumber], sleeps := s.sleeps ++ w.sleeps }
      match w.result with
      | Except.ok content =>
        let s2 : PState :=
          { s1 with projects := applySuccess s1.projects projectId ch.chapterNumber content now }
        genLoop gen projectId now rest s2 (cc.map (chapUpdate ch.chapterNumber content)) false
      | Except.error e =>
        let isFatal := appIsFatal e
        let s2 : PState :=
          if isFatal then
            { s1 with alerts := s1.alerts ++ ["Generation Stopped: " ++ e.message] }
          else s1
        let s3 : PState :=
          { s2 with
            projects :=
              applyFailure s2.projects projectId ch.chapterNumber
                (if isFatal then "Stopped due to API error." else "Generation failed. Please retry.") }
        genLoop gen projectId now rest s3 cc isFatal

/-- `startBookGeneration`, `src/App.tsx` lines 129–210: look up the project
(returning unchanged without outline or project), mark the run active,
acquire the wake lock, persist the initialized chapter list, run the
chapter loop, then clear the active-run flag and release the wake lock. -/
def startBookGeneration (avail : Bool) (gen : Nat → Nat → GenOutcome) (now : Nat)
    (s : PState) (projectId : String) : PState :=
  match s.projects.find? (fun p => p.id == projectId) with
  | none => s
  | some project =>
    match project.outline with
    | none => s
    | some outline =>
      let s1 : PState := { s with generatingProjectId := some projectId }
      let s2 := requestWakeLock avail s1
      let cc := initializeChapters project outline
      let s3 : PState := { s2 with projects := initialPersist s2.projects project outline }
      let s4 := genLoop gen projectId now outline.chapters s3 cc false
      let s5 : PState := { s4 with generatingProjectId := none }
      releaseWakeLock s5

/-- Look a project up by id, as every write site does. -/
def findProject (store : List BookProject) (projectId : String) : Option BookProject :=
  store.find? (fun p => p.id == projectId)

/-- The stored chapter entry of number `n` of project `projectId`. -/
def findChapter (store : List BookProject) (projectId : String) (n : Nat) :
    Option ChapterContent :=
  (findProject store projectId).bind fun p =>
    p.chapters.find? (fun c => c.chapterNumber == n)

/-- The stored content of chapter `n` of project `projectId`. -/
def chapContent (store : List BookProject) (projectId : String) (n : Nat) :
    Option String :=
  (findChapter store projectId n).map fun c => c.content

/-- `isGeneratingGlobal` as computed for the editor, `src/App.tsx` line 326:
`generatingProjectId === activeProject.id`. -/
def isGeneratingGlobalFlag (generatingProjectId : Option String) (projectId : String) : Bool :=
  generatingProjectId == some projectId

/-- The auto-start effect condition of `src/components/ProjectEditor.tsx`
line 52: fire only on step 2 with an outline, no chapters yet, nothing
processing, no run active for this project and no error shown. -/
def autoStartCondition (currentStep : Nat) (hasOutline : Bool) (chaptersLen : Nat)
    (isProcessing isGenGlobal hasError : Bool) : Bool :=
  currentStep == 2 && hasOutline && chaptersLen == 0 &&
    !isProcessing && !isGenGlobal && !hasError

/-! ### Concrete fixtures used by counterexamples and witnesses -/

/-- A fresh pipeline state over the given store: no run active, no wake
lock, empty traces. -/
def sampleState (ps : List BookProject) : PState :=
  { projects := ps, generatingProjectId := none, wakeLock := none,
    acquires := 0, releases := 0, alerts := [], sleeps := [], invoked := [] }

def sampleOutline (l : List ChapterOutline) : BookOutline :=
  { title := "Book", description := "Desc", chapters := l }

def sampleProject (cs : List ChapterContent) (l : List ChapterOutline) : BookProject :=
  { id := "p", title := "Title", lastModified := 0, sources := [],
    outline := some (sampleOutline l), chapters := cs, currentStep := 2 }

/-- Backend behaviour: chapter 1 always throws a bare HTTP 401 error,
chapter 2 succeeds. -/
def gen401 : Nat → Nat → GenOutcome := fun ch _ =>
  if ch == 1 then
    GenOutcome.err { message := "Request had invalid authentication credentials", status := some 401 }
  else GenOutcome.ok (some "chapter two text")

/-- Backend behaviour: every call succeeds with fresh content. -/
def genFresh : Nat → Nat → GenOutcome := fun _ _ => GenOutcome.ok (some "fresh content")

/-- Backend behaviour: every call throws a leaked-key 403 error. -/
def genLeaked : Nat → Nat → GenOutcome := fun _ _ =>
  GenOutcome.err { message := "API key leaked", status := some 403 }

/-- Backend behaviour: every call responds with absent text. -/
def genEmptyText : Nat → Nat → GenOutcome := fun _ _ => GenOutcome.ok none

/-- Single-chapter backend behaviour: every attempt throws a transient
network error. -/
def genNetwork : Nat → GenOutcome := fun _ =>
  GenOutcome.err { message := "network error", status := none }

/-- Single-chapter backend behaviour: two transient failures, then a
response on the third attempt. -/
def genThird : Nat → GenOutcome := fun a =>
  if a == 2 then GenOutcome.ok (some "third attempt content")
  else GenOutcome.err { message := "network error", status := none }

/-- Backend behaviour: every attempt of every chapter throws a transient
network error. -/
def genNetworkAll : Nat → Nat → GenOutcome := fun _ _ =>
  GenOutcome.err { message := "network error", status := none }

/-- Backend behaviour: chapter 1 always throws a transient network error,
other chapters succeed. -/
def genMixed : Nat → Nat → GenOutcome := fun ch _ =>
  if ch == 1 then GenOutcome.err { message := "network error", status := none }
  else GenOutcome.ok (some "fresh content")

/-- A store whose project's title was updated to `"New Title"` by the UI. -/
def c8Store : List BookProject :=
  [{ id := "p", title := "New Title", lastModified := 5, sources := [],
     outline := some (sampleOutline [⟨1, "One", "s1"⟩]), chapters := [],
     currentStep := 2 }]

/-- The run-entry snapshot of the same project, captured before the title
edit, still carrying `"Old Title"`. -/
def c8Snapshot : BookProject :=
  { id := "p", title := "Old Title", lastModified := 0, sources := [],
    outline := some (sampleOutline [⟨1, "One", "s1"⟩]), chapters := [],
    currentStep := 2 }

/-- A store with an updated title and a chapter still being written. -/
def c8ChapterStore : List BookProject :=
  [{ id := "p", title := "New Title", lastModified := 5, sources := [],
     outline := none, chapters := [⟨2, "Two", "", true⟩], currentStep := 2 }]

/-! ### Helper lemmas -/

/-- Every error the pipeline-level check of `App.tsx` treats as fatal is
also fatal for the retry-level check of `gemini.ts` (the converse fails:
status 401 and `API key` messages are only retry-level fatal). -/
theorem appIsFatal_isFatalError {e : GenError} (h : appIsFatal e = true) :
    isFatalError e = true := by
  unfold appIsFatal at h
  unfold isFatalError
  rcases Bool.or_eq_true_iff.mp h with h' | hs
  · rcases Bool.or_eq_true_iff.mp h' with h1 | h2
    · simp [h1]
    · simp [h2]
  · simp [hs]

theorem writeChapterAux_calls_le (gen : Nat → GenOutcome) (n : Nat) :
    ∀ (fuel attempt : Nat), (writeChapterAux gen n attempt fuel).calls ≤ fuel := by
  intro fuel
  induction fuel with
  | zero => intro attempt; exact Nat.le_refl 0
  | succ f ih =>
    intro attempt
    rw [writeChapterAux]
    cases gen attempt with
    | ok t => exact Nat.succ_le_succ (Nat.zero_le f)
    | err e =>
      by_cases hf : isFatalError e = true
      · simp only [hf, if_true]
        exact Nat.succ_le_succ (Nat.zero_le f)
      · simp only [Bool.not_eq_true] at hf
        simp only [hf, Bool.false_eq_true, if_false]
        by_cases hm : maxAttempts ≤ attempt + 1
        · simp only [hm, if_true]
          exact Nat.succ_le_succ (Nat.zero_le f)
        · simp only [hm, if_false]
          exact Nat.succ_le_succ (ih (attempt + 1))

theorem writeChapterAux_calls_pos (gen : Nat → GenOutcome) (n : Nat)
    (fuel attempt : Nat) (h : 0 < fuel) :
    1 ≤ (writeChapterAux gen n attempt fuel).calls := by
  cases fuel with
  | zero => exact absurd h (Nat.lt_irrefl 0)
  | succ f =>
    rw [writeChapterAux]
    cases gen attempt with
    | ok t => exact Nat.le_refl 1
    | err e =>
      by_cases hf : isFatalError e = true
      · simp [hf]
      · simp only [Bool.not_eq_true] at hf
        simp only [hf, Bool.false_eq_true, if_false]
        by_cases hm : maxAttempts ≤ attempt + 1
        · simp [hm]
        · simp only [hm, if_false]
          exact Nat.succ_le_succ (Nat.zero_le _)

/-- A first-attempt response returns at once: `response.text || ""`, no
sleeps, a single backend call. -/
theorem writeChapter_first_ok (gen : Nat → GenOutcome) (n : Nat) (t : Option String)
    (h : gen 0 = GenOutcome.ok t) :
    writeChapter gen n = ⟨Except.ok (t.getD ""), [], 1⟩ := by
  rw [writeChapter, maxAttempts, writeChapterAux, h]

/-- A first-attempt fatal error propagates at once: no retry, no sleep. -/
theorem writeChapter_first_fatal (gen : Nat → GenOutcome) (n : Nat) (e : GenError)
    (h : gen 0 = GenOutcome.err e) (hf : isFatalError e = true) :
    writeChapter gen n = ⟨Except.error e, [], 1⟩ := by
  rw [writeChapter, maxAttempts, writeChapterAux, h]
  simp [hf]

/-- Two transient failures followed by a response: two backoff sleeps of
2000 ms and 4000 ms, three calls, and the third response is returned. -/
theorem writeChapter_third_ok (gen : Nat → GenOutcome) (n : Nat) (e₀ e₁ : GenError)
    (t : Option String) (h0 : gen 0 = GenOutcome.err e₀) (hf0 : isFatalError e₀ = false)
    (h1 : gen 1 = GenOutcome.err e₁) (hf1 : isFatalError e₁ = false)
    (h2 : gen 2 = GenOutcome.ok t) :
    writeChapter gen n = ⟨Except.ok (t.getD ""), [2000, 4000], 3⟩ := by
  rw [writeChapter, maxAttempts, writeChapterAux, h0]
  simp only [hf0, Bool.false_eq_true, if_false]
  norm_num
  rw [writeChapterAux, h1]
  simp only [hf1, Bool.false_eq_true, if_false]
  norm_num
  rw [writeChapterAux, h2]
  simp [maxAttempts]

/-- Three transient failures exhaust the retry budget: two backoff sleeps,
three calls, and the chapter-carrying exhaustion error is thrown. -/
theorem writeChapter_exhausted (gen : Nat → GenOutcome) (n : Nat) (e₀ e₁ e₂ : GenError)
    (h0 : gen 0 = GenOutcome.err e₀) (hf0 : isFatalError e₀ = false)
    (h1 : gen 1 = GenOutcome.err e₁) (hf1 : isFatalError e₁ = false)
    (h2 : gen 2 = GenOutcome.err e₂) (hf2 : isFatalError e₂ = false) :
    writeChapter gen n = ⟨Except.error (failedChapterError n), [2000, 4000], 3⟩ := by
  rw [writeChapter, maxAttempts, writeChapterAux, h0]
  simp only [hf0, Bool.false_eq_true, if_false]
  norm_num
  rw [writeChapterAux, h1]
  simp only [hf1, Bool.false_eq_true, if_false]
  norm_num
  rw [writeChapterAux, h2]
  simp only [hf2, Bool.false_eq_true, if_false]
  simp [maxAttempts]

/-- Once the fatal flag is set, the remaining loop changes nothing: every
later iteration either `continue`s past an already-done chapter or hits the
`break`. -/
theorem genLoop_fatal_id (gen : Nat → Nat → GenOutcome) (pid : String) (now : Nat) :
    ∀ (l : List ChapterOutline) (s : PState) (cc : List ChapterContent),
    genLoop gen pid now l s cc true = s := by
  intro l
  induction l with
  | nil => intro s cc; rfl
  | cons ch rest ih =>
    intro s cc
    rw [genLoop]
    by_cases h : shouldSkip cc ch.chapterNumber = true
    · simp only [h, if_true]
      exact ih s cc
    · simp only [Bool.not_eq_true] at h
      simp [h]

/-- The loop only appends to the invocation trace. -/
theorem genLoop_invoked_mono (gen : Nat → Nat → GenOutcome) (pid : String) (now : Nat) :
    ∀ (l : List ChapterOutline) (s : PState) (cc : List ChapterContent) (b : Bool),
    ∃ t, (genLoop gen pid now l s cc b).invoked = s.invoked ++ t := by
  intro l
  induction l with
  | nil => intro s cc b; exact ⟨[], (List.append_nil s.invoked).symm⟩
  | cons ch rest ih =>
    intro s cc b
    rw [genLoop]
    by_cases h : shouldSkip cc ch.chapterNumber = true
    · simp only [h, if_true]
      exact ih s cc b
    · simp only [Bool.not_eq_true] at h
      simp only [h, Bool.false_eq_true, if_false]
      by_cases hb : b = true
      · simp only [hb, if_true]
        exact ⟨[], (List.append_nil s.invoked).symm⟩
      · simp only [Bool.not_eq_true] at hb
        simp only [hb, Bool.false_eq_true, if_false]
        cases hw : (writeChapter (gen ch.chapterNumber) ch.chapterNumber).result with
        | ok content =>
          obtain ⟨t, ht⟩ := ih _ _ false
          refine ⟨[ch.chapterNumber] ++ t, ?_⟩
          rw [ht]
          simp [List.append_assoc]
        | error e =>
          by_cases hf : appIsFatal e = true
          · simp only [hf, if_true]
            obtain ⟨t, ht⟩ := ih _ _ true
            refine ⟨[ch.chapterNumber] ++ t, ?_⟩
            rw [ht]
            simp [List.append_assoc]
          · simp only [Bool.not_eq_true] at hf
            simp only [hf, Bool.false_eq_true, if_false]
            obtain ⟨t, ht⟩ := ih _ _ false
            refine ⟨[ch.chapterNumber] ++ t, ?_⟩
            rw [ht]
            simp [List.append_assoc]

/-- The loop never touches the run flag, the wake-lock sentinel or its
counters. -/
theorem genLoop_run_fields (gen : Nat → Nat → GenOutcome) (pid : String) (now : Nat) :
    ∀ (l : List ChapterOutline) (s : PState) (cc : List ChapterContent) (b : Bool),
    (genLoop gen pid now l s cc b).generatingProjectId = s.generatingProjectId ∧
    (genLoop gen pid now l s cc b).wakeLock = s.wakeLock ∧
    (genLoop gen pid now l s cc b).acquires = s.acquires ∧
    (genLoop gen pid now l s cc b).releases = s.releases := by
  intro l
  induction l with
  | nil => intro s cc b; exact ⟨rfl, rfl, rfl, rfl⟩
  | cons ch rest ih =>
    intro s cc b
    rw [genLoop]
    by_cases h : shouldSkip cc ch.chapterNumber = true
    · simp only [h, if_true]
      exact ih s cc b
    · simp only [Bool.not_eq_true] at h
      simp only [h, Bool.false_eq_true, if_false]
      by_cases hb : b = true
      · simp [hb]
      · simp only [Bool.not_eq_true] at hb
        simp only [hb, Bool.false_eq_true, if_false]
        cases hw : (writeChapter (gen ch.chapterNumber) ch.chapterNumber).result with
        | ok content => exact ih _ _ false
        | error e =>
          by_cases hf : appIsFatal e = true
          · simp only [hf, if_true]
            exact ih _ _ true
          · simp only [Bool.not_eq_true] at hf
            simp only [hf, Bool.false_eq_true, if_false]
            exact ih _ _ false

/-- The loop's observable outcome (store, invocations, alerts, sleeps)
depends only on those same components of the incoming state, not on the
wake-lock or run-flag fields. -/
theorem genLoop_congr (gen : Nat → Nat → GenOutcome) (pid : String) (now : Nat) :
    ∀ (l : List ChapterOutline) (cc : List ChapterContent) (b : Bool) (s t : PState),
    s.projects = t.projects → s.invoked = t.invoked → s.alerts = t.alerts →
    s.sleeps = t.sleeps →
    ((genLoop gen pid now l s cc b).projects = (genLoop gen pid now l t cc b).projects ∧
     (genLoop gen pid now l s cc b).invoked = (genLoop gen pid now l t cc b).invoked ∧
     (genLoop gen pid now l s cc b).alerts = (genLoop gen pid now l t cc b).alerts ∧
     (genLoop gen pid now l s cc b).sleeps = (genLoop gen pid now l t cc b).sleeps) := by
  intro l
  induction l with
  | nil => intro cc b s t hp hi ha hsl; exact ⟨hp, hi, ha, hsl⟩
  | cons ch rest ih =>
    intro cc b s t hp hi ha hsl
    rw [genLoop, genLoop]
    by_cases h : shouldSkip cc ch.chapterNumber = true
    · simp only [h, if_true]
      exact ih cc b s t hp hi ha hsl
    · simp only [Bool.not_eq_true] at h
      simp only [h, Bool.false_eq_true, if_false]
      by_cases hb : b = true
      · simp only [hb, if_true]
        exact ⟨hp, hi, ha, hsl⟩
      · simp only [Bool.not_eq_true] at hb
        simp only [hb, Bool.false_eq_true, if_false]
        cases hw : (writeChapter (gen ch.chapterNumber) ch.chapterNumber).result with
        | ok content =>
          refine ih _ false _ _ ?_ ?_ ?_ ?_ <;> simp [hp, hi, ha, hsl]
        | error e =>
          by_cases hf : appIsFatal e = true
          · simp only [hf, if_true]
            refine ih _ true _ _ ?_ ?_ ?_ ?_ <;> simp [hp, hi, ha, hsl]
          · simp only [Bool.not_eq_true] at hf
            simp only [hf, Bool.false_eq_true, if_false]
            refine ih _ false _ _ ?_ ?_ ?_ ?_ <;> simp [hp, hi, ha, hsl]

theorem requestWakeLock_parts (avail : Bool) (s : PState) :
    (requestWakeLock avail s).projects = s.projects ∧
    (requestWakeLock avail s).invoked = s.invoked ∧
    (requestWakeLock avail s).alerts = s.alerts ∧
    (requestWakeLock avail s).sleeps = s.sleeps ∧
    (requestWakeLock avail s).generatingProjectId = s.generatingProjectId ∧
    (requestWakeLock avail s).releases = s.releases := by
  unfold requestWakeLock
  by_cases h : avail = true
  · simp [h]
  · simp only [Bool.not_eq_true] at h
    simp [h]

theorem releaseWakeLock_parts (s : PState) :
    (releaseWakeLock s).projects = s.projects ∧
    (releaseWakeLock s).invoked = s.invoked ∧
    (releaseWakeLock s).alerts = s.alerts ∧
    (releaseWakeLock s).sleeps = s.sleeps ∧
    (releaseWakeLock s).generatingProjectId = s.generatingProjectId ∧
    (releaseWakeLock s).acquires = s.acquires := by
  unfold releaseWakeLock
  cases s.wakeLock with
  | none => exact ⟨rfl, rfl, rfl, rfl, rfl, rfl⟩
  | some u => exact ⟨rfl, rfl, rfl, rfl, rfl, rfl⟩

theorem chapUpdate_chapterNumber (n : Nat) (content : String) (c : ChapterContent) :
    (chapUpdate n content c).chapterNumber = c.chapterNumber := by
  unfold chapUpdate
  split <;> rfl

theorem find?_map_chapUpdate (cc : List ChapterContent) (w : Nat) (content : String)
    (n : Nat) :
    (cc.map (chapUpdate w content)).find? (fun x => x.chapterNumber == n) =
      (cc.find? (fun x => x.chapterNumber == n)).map (chapUpdate w content) := by
  rw [List.find?_map]
  have hcomp : ((fun x : ChapterContent => x.chapterNumber == n) ∘ chapUpdate w content) =
      fun x : ChapterContent => x.chapterNumber == n := by
    funext x
    simp [Function.comp, chapUpdate_chapterNumber]
  rw [hcomp]

theorem find?_eq_chapterNumber {cc : List ChapterContent} {n : Nat} {x : ChapterContent}
    (h : cc.find? (fun c => c.chapterNumber == n) = some x) :
    (x.chapterNumber == n) = true := by
  simpa using @List.find?_some ChapterContent (fun c => c.chapterNumber == n) x cc h

theorem find?_eq_projectId {store : List BookProject} {pid : String} {p : BookProject}
    (h : store.find? (fun q => q.id == pid) = some p) :
    (p.id == pid) = true := by
  simpa using @List.find?_some BookProject (fun q => q.id == pid) p store h

/-- Updating chapter `w` leaves the skip-check verdict of a different
chapter `n` unchanged. -/
theorem shouldSkip_map_chapUpdate (cc : List ChapterContent) (w : Nat) (content : String)
    (n : Nat) (h : (w == n) = false) :
    shouldSkip (cc.map (chapUpdate w content)) n = shouldSkip cc n := by
  unfold shouldSkip
  rw [find?_map_chapUpdate]
  cases hf : cc.find? (fun x => x.chapterNumber == n) with
  | none => rfl
  | some x =>
    have hx : (x.chapterNumber == n) = true := find?_eq_chapterNumber hf
    have hxn : x.chapterNumber = n := by simpa using hx
    have hxw : (x.chapterNumber == w) = false := by
      rw [hxn]
      rw [beq_eq_false_iff_ne] at h ⊢
      exact fun hh => h hh.symm
    have : chapUpdate w content x = x := by
      unfold chapUpdate
      rw [hxw]
      simp
    simp [this]

/-- The success write touches no chapter other than the processed one. -/
theorem chapContent_applySuccess_ne (store : List BookProject) (pid : String)
    (n : Nat) (content : String) (now : Nat) (m : Nat) (h : (m == n) = false) :
    chapContent (applySuccess store pid n content now) pid m = chapContent store pid m := by
  unfold chapContent findChapter findProject applySuccess
  rw [List.find?_map]
  have hcomp : ((fun p : BookProject => p.id == pid) ∘ fun p : BookProject =>
      if p.id == pid then
        { p with chapters := p.chapters.map (chapUpdate n content), lastModified := now }
      else p) = fun p : BookProject => p.id == pid := by
    funext p
    by_cases hp : (p.id == pid) = true
    · simp [Function.comp, hp]
    · simp only [Bool.not_eq_true] at hp
      simp [Function.comp, hp]
  rw [hcomp]
  cases hfp : store.find? (fun p => p.id == pid) with
  | none => rfl
  | some p =>
    have hpid : (p.id == pid) = true := find?_eq_projectId hfp
    simp only [Option.map_some', Option.some_bind, hpid, if_true]
    rw [find?_map_chapUpdate]
    cases hfc : p.chapters.find? (fun x => x.chapterNumber == m) with
    | none => rfl
    | some x =>
      have hx : (x.chapterNumber == m) = true := find?_eq_chapterNumber hfc
      have hxm : x.chapterNumber = m := by simpa using hx
      have hxn : (x.chapterNumber == n) = false := by rw [hxm]; exact h
      have : chapUpdate n content x = x := by
        unfold chapUpdate
        rw [hxn]
        simp
      simp [this]

/-- The failure write touches no chapter other than the processed one. -/
theorem chapContent_applyFailure_ne (store : List BookProject) (pid : String)
    (n : Nat) (content : String) (m : Nat) (h : (m == n) = false) :
    chapContent (applyFailure store pid n content) pid m = chapContent store pid m := by
  unfold chapContent findChapter findProject applyFailure
  rw [List.find?_map]
  have hcomp : ((fun p : BookProject => p.id == pid) ∘ fun p : BookProject =>
      if p.id == pid then
        { p with chapters := p.chapters.map (chapUpdate n content) }
      else p) = fun p : BookProject => p.id == pid := by
    funext p
    by_cases hp : (p.id == pid) = true
    · simp [Function.comp, hp]
    · simp only [Bool.not_eq_true] at hp
      simp [Function.comp, hp]
  rw [hcomp]
  cases hfp : store.find? (fun p => p.id == pid) with
  | none => rfl
  | some p =>
    have hpid : (p.id == pid) = true := find?_eq_projectId hfp
    simp only [Option.map_some', Option.some_bind, hpid, if_true]
    rw [find?_map_chapUpdate]
    cases hfc : p.chapters.find? (fun x => x.chapterNumber == m) with
    | none => rfl
    | some x =>
      have hx : (x.chapterNumber == m) = true := find?_eq_chapterNumber hfc
      have hxm : x.chapterNumber = m := by simpa using hx
      have hxn : (x.chapterNumber == n) = false := by rw [hxm]; exact h
      have : chapUpdate n content x = x := by
        unfold chapUpdate
        rw [hxn]
        simp
      simp [this]

/-- The success write stores the new content in the processed chapter. -/
theorem chapContent_applySuccess_eq (store : List BookProject) (pid : String)
    (n : Nat) (content : String) (now : Nat) (x : ChapterContent)
    (h : findChapter store pid n = some x) :
    chapContent (applySuccess store pid n content now) pid n = some content := by
  unfold findChapter findProject at h
  unfold chapContent findChapter findProject applySuccess
  rw [List.find?_map]
  have hcomp : ((fun p : BookProject => p.id == pid) ∘ fun p : BookProject =>
      if p.id == pid then
        { p with chapters := p.chapters.map (chapUpdate n content), lastModified := now }
      else p) = fun p : BookProject => p.id == pid := by
    funext p
    by_cases hp : (p.id == pid) = true
    · simp [Function.comp, hp]
    · simp only [Bool.not_eq_true] at hp
      simp [Function.comp, hp]
  rw [hcomp]
  cases hfp : store.find? (fun p => p.id == pid) with
  | none => rw [hfp] at h; exact absurd h (by simp)
  | some p =>
    rw [hfp] at h
    simp only [Option.some_bind] at h
    have hpid : (p.id == pid) = true := find?_eq_projectId hfp
    simp only [Option.map_some', Option.some_bind, hpid, if_true]
    rw [find?_map_chapUpdate, h]
    have hx : (x.chapterNumber == n) = true := find?_eq_chapterNumber h
    have : chapUpdate n content x = { x with content := content, isGenerating := false } := by
      unfold chapUpdate
      rw [hx]
      simp
    simp [this]

/-- Writing back the very record that lookup by id returns leaves that
lookup unchanged. -/
theorem findProject_handleUpdate_self {store : List BookProject} {pid : String}
    {p : BookProject} (h : store.find? (fun q => q.id == pid) = some p) :
    (handleUpdateProject store p).find? (fun q => q.id == pid) = some p := by
  induction store with
  | nil => simp at h
  | cons q rest ih =>
    have hpid : (p.id == pid) = true := find?_eq_projectId h
    unfold handleUpdateProject
    rw [List.map_cons]
    by_cases hq : (q.id == pid) = true
    · rw [@List.find?_cons_of_pos _ (fun x : BookProject => x.id == pid) q rest hq] at h
      have hqp : q = p := Option.some.inj h
      subst hqp
      have hqq : (q.id == q.id) = true := by simp
      rw [hqq]
      simp only [if_true]
      exact @List.find?_cons_of_pos _ (fun x : BookProject => x.id == pid) q
        (List.map (fun x => if (x.id == q.id) = true then q else x) rest) hq
    · simp only [Bool.not_eq_true] at hq
      rw [@List.find?_cons_of_neg _ (fun x : BookProject => x.id == pid) q rest
        (by simp [hq])] at h
      have hqp : (q.id == p.id) = false := by
        rw [beq_eq_false_iff_ne] at hq ⊢
        rw [beq_iff_eq] at hpid
        rw [hpid]
        exact hq
      rw [hqp]
      simp only [Bool.false_eq_true, if_false]
      rw [@List.find?_cons_of_neg _ (fun x : BookProject => x.id == pid) q
        (List.map (fun x => if (x.id == p.id) = true then p else x) rest) (by simp [hq])]
      exact ih h

theorem chapContent_handleUpdate_self {store : List BookProject} {pid : String}
    {p : BookProject} (h : store.find? (fun q => q.id == pid) = some p) (n : Nat) :
    chapContent (handleUpdateProject store p) pid n = chapContent store pid n := by
  unfold chapContent findChapter findProject
  rw [findProject_handleUpdate_self h, h]

/-- A chapter whose stored entry passes the skip check is never invoked by
the remaining loop, and its stored content never changes. -/
theorem genLoop_skip_frame (gen : Nat → Nat → GenOutcome) (pid : String) (now : Nat)
    (n : Nat) :
    ∀ (l : List ChapterOutline) (s : PState) (cc : List ChapterContent) (b : Bool),
    shouldSkip cc n = true →
    ((genLoop gen pid now l s cc b).invoked.count n = s.invoked.count n ∧
     chapContent (genLoop gen pid now l s cc b).projects pid n =
       chapContent s.projects pid n) := by
  intro l
  induction l with
  | nil => intro s cc b hskip; exact ⟨rfl, rfl⟩
  | cons ch rest ih =>
    intro s cc b hskip
    rw [genLoop]
    by_cases h : shouldSkip cc ch.chapterNumber = true
    · simp only [h, if_true]
      exact ih s cc b hskip
    · simp only [Bool.not_eq_true] at h
      simp only [h, Bool.false_eq_true, if_false]
      have hne : (ch.chapterNumber == n) = false := by
        cases hbe : (ch.chapterNumber == n) with
        | false => rfl
        | true =>
          have hn : ch.chapterNumber = n := by simpa using hbe
          rw [hn, hskip] at h
          simp at h
      have hnen : (n == ch.chapterNumber) = false := by
        rw [beq_eq_false_iff_ne] at hne ⊢
        exact fun hh => hne hh.symm
      by_cases hb : b = true
      · simp [hb]
      · simp only [Bool.not_eq_true] at hb
        simp only [hb, Bool.false_eq_true, if_false]
        cases hw : (writeChapter (gen ch.chapterNumber) ch.chapterNumber).result with
        | ok content =>
          have hskip2 : shouldSkip (cc.map (chapUpdate ch.chapterNumber content)) n = true := by
            rw [shouldSkip_map_chapUpdate _ _ _ _ hne]
            exact hskip
          obtain ⟨hc, hcc⟩ := ih _ _ false hskip2
          constructor
          · rw [hc]
            simp [List.count_append, List.count_singleton, hne]
          · rw [hcc]
            exact chapContent_applySuccess_ne _ _ _ _ _ _ hnen
        | error e =>
          by_cases hf : appIsFatal e = true
          · simp only [hf, if_true]
            obtain ⟨hc, hcc⟩ := ih _ _ true hskip
            constructor
            · rw [hc]
              simp [List.count_append, List.count_singleton, hne]
            · rw [hcc]
              exact chapContent_applyFailure_ne _ _ _ _ _ hnen
          · simp only [Bool.not_eq_true] at hf
            simp only [hf, Bool.false_eq_true, if_false]
            obtain ⟨hc, hcc⟩ := ih _ _ false hskip
            constructor
            · rw [hc]
              simp [List.count_append, List.count_singleton, hne]
            · rw [hcc]
              exact chapContent_applyFailure_ne _ _ _ _ _ hnen

/-! ### Claim theorems -/

/-- C5: the per-chapter retry policy makes at most 3 attempts; a call
failing transiently on attempts 1 and 2 sleeps 1 s · 2¹ = 2000 ms and then
1 s · 2² = 4000 ms and returns the third attempt's content; three transient
failures exhaust the budget and throw the error carrying the chapter
number. -/
theorem C5_retry_policy :
    (∀ (gen : Nat → GenOutcome) (n : Nat), (writeChapter gen n).calls ≤ maxAttempts) ∧
    (∀ (gen : Nat → GenOutcome) (n : Nat) (e₀ e₁ : GenError) (c : String),
      gen 0 = GenOutcome.err e₀ → isFatalError e₀ = false →
      gen 1 = GenOutcome.err e₁ → isFatalError e₁ = false →
      gen 2 = GenOutcome.ok (some c) →
      writeChapter gen n = ⟨Except.ok c, [2000, 4000], 3⟩) ∧
    (∀ (gen : Nat → GenOutcome) (n : Nat) (e₀ e₁ e₂ : GenError),
      gen 0 = GenOutcome.err e₀ → isFatalError e₀ = false →
      gen 1 = GenOutcome.err e₁ → isFatalError e₁ = false →
      gen 2 = GenOutcome.err e₂ → isFatalError e₂ = false →
      writeChapter gen n = ⟨Except.error (failedChapterError n), [2000, 4000], 3⟩ ∧
        (failedChapterError n).message = "Failed to write chapter " ++ toString n) := by
  refine ⟨?_, ?_, ?_⟩
  · intro gen n
    exact writeChapterAux_calls_le gen n maxAttempts 0
  · intro gen n e₀ e₁ c h0 hf0 h1 hf1 h2
    have := writeChapter_third_ok gen n e₀ e₁ (some c) h0 hf0 h1 hf1 h2
    simpa using this
  · intro gen n e₀ e₁ e₂ h0 hf0 h1 hf1 h2 hf2
    exact ⟨writeChapter_exhausted gen n e₀ e₁ e₂ h0 hf0 h1 hf1 h2 hf2, rfl⟩

/-- C5 witness: the backoff schedule and outcome at concrete backends —
two network failures then success, and three network failures. -/
theorem C5_retry_policy_witness :
    genThird 0 = GenOutcome.err { message := "network error", status := none } ∧
    isFatalError { message := "network error", status := none } = false ∧
    genThird 2 = GenOutcome.ok (some "third attempt content") ∧
    writeChapter genThird 4 = ⟨Except.ok "third attempt content", [2000, 4000], 3⟩ ∧
    writeChapter genNetwork 4 = ⟨Except.error (failedChapterError 4), [2000, 4000], 3⟩ := by
  refine ⟨by decide, by decide, by decide, ?_, ?_⟩
  · exact C5_retry_policy.2.1 genThird 4 { message := "network error", status := none }
      { message := "network error", status := none } "third attempt content"
      (by decide) (by decide) (by decide) (by decide) (by decide)
  · exact (C5_retry_policy.2.2 genNetwork 4 { message := "network error", status := none }
      { message := "network error", status := none } { message := "network error", status := none }
      (by decide) (by decide) (by decide) (by decide) (by decide) (by decide)).1

/-- C1 counterexample: an HTTP 401 error is fatal for the retry-level
classifier (`isFatalError`), so the claim's hypothesis holds, yet the run
does not stop: the failed chapter gets the transient marker `"Generation
failed. Please retry."` instead of `"Stopped due to API error."`, the next
chapter is still invoked, and no fatal reason is surfaced — because the
run-level check (`appIsFatal`) recognizes neither status 401 nor the
message. -/
theorem C1_counterexample :
    gen401 1 0 =
      GenOutcome.err
        { message := "Request had invalid authentication credentials", status := some 401 } ∧
    isFatalError
      { message := "Request had invalid authentication credentials", status := some 401 } = true ∧
    (startBookGeneration true gen401 7
      (sampleState [sampleProject [] [⟨1, "One", "s1"⟩, ⟨2, "Two", "s2"⟩]]) "p").invoked =
      [1, 2] ∧
    chapContent
      (startBookGeneration true gen401 7
        (sampleState [sampleProject [] [⟨1, "One", "s1"⟩, ⟨2, "Two", "s2"⟩]]) "p").projects
      "p" 1 = some "Generation failed. Please retry." ∧
    (startBookGeneration true gen401 7
      (sampleState [sampleProject [] [⟨1, "One", "s1"⟩, ⟨2, "Two", "s2"⟩]]) "p").alerts =
      [] := by
  decide

/-- C1 (amended): when a chapter's generator throws an error that the
run-level check `appIsFatal` accepts (status 403, or a message containing
`leaked` or `PERMISSION_DENIED`), the error propagates out of the retry
loop with no retry and no backoff sleep even on attempt 1, the chapter is
persisted as failed with content `"Stopped due to API error."`, no later
chapter is invoked, and the fatal reason is alerted exactly once.  Errors
fatal only for the retry-level check (plain 401, `API key` messages) do
not abort the run. -/
theorem C1_fatal_short_circuit (gen : Nat → Nat → GenOutcome) (pid : String) (now : Nat)
    (s : PState) (cc : List ChapterContent) (ch : ChapterOutline)
    (rest : List ChapterOutline) (e : GenError)
    (hg : gen ch.chapterNumber 0 = GenOutcome.err e)
    (hf : appIsFatal e = true)
    (hs : shouldSkip cc ch.chapterNumber = false) :
    writeChapter (gen ch.chapterNumber) ch.chapterNumber = ⟨Except.error e, [], 1⟩ ∧
    (genLoop gen pid now (ch :: rest) s cc false).invoked = s.invoked ++ [ch.chapterNumber] ∧
    (genLoop gen pid now (ch :: rest) s cc false).sleeps = s.sleeps ∧
    (genLoop gen pid now (ch :: rest) s cc false).alerts =
      s.alerts ++ ["Generation Stopped: " ++ e.message] ∧
    (genLoop gen pid now (ch :: rest) s cc false).projects =
      applyFailure s.projects pid ch.chapterNumber "Stopped due to API error." := by
  have hfe : isFatalError e = true := appIsFatal_isFatalError hf
  have hw : writeChapter (gen ch.chapterNumber) ch.chapterNumber = ⟨Except.error e, [], 1⟩ :=
    writeChapter_first_fatal _ _ _ hg hfe
  have hloop : genLoop gen pid now (ch :: rest) s cc false =
      { s with
        invoked := s.invoked ++ [ch.chapterNumber],
        sleeps := s.sleeps ++ [],
        alerts := s.alerts ++ ["Generation Stopped: " ++ e.message],
        projects := applyFailure s.projects pid ch.chapterNumber "Stopped due to API error." } := by
    rw [genLoop]
    simp only [hs, Bool.false_eq_true, if_false, hw, hf, if_true]
    rw [genLoop_fatal_id]
  refine ⟨hw, ?_, ?_, ?_, ?_⟩
  · rw [hloop]
  · rw [hloop]
    simp
  · rw [hloop]
  · rw [hloop]

/-- C1 witness: a leaked-key 403 error on the first chapter stops the run
at a concrete input. -/
theorem C1_fatal_short_circuit_witness :
    genLeaked 1 0 = GenOutcome.err { message := "API key leaked", status := some 403 } ∧
    appIsFatal { message := "API key leaked", status := some 403 } = true ∧
    shouldSkip [⟨1, "One", "", true⟩, ⟨2, "Two", "", true⟩] 1 = false ∧
    (genLoop genLeaked "p" 0 [⟨1, "One", "s1"⟩, ⟨2, "Two", "s2"⟩]
      (sampleState [sampleProject [⟨1, "One", "", true⟩, ⟨2, "Two", "", true⟩]
        [⟨1, "One", "s1"⟩, ⟨2, "Two", "s2"⟩]])
      [⟨1, "One", "", true⟩, ⟨2, "Two", "", true⟩] false).invoked = [] ++ [1] := by
  refine ⟨by decide, by decide, by decide, ?_⟩
  exact (C1_fatal_short_circuit genLeaked "p" 0
    (sampleState [sampleProject [⟨1, "One", "", true⟩, ⟨2, "Two", "", true⟩]
      [⟨1, "One", "s1"⟩, ⟨2, "Two", "s2"⟩]])
    [⟨1, "One", "", true⟩, ⟨2, "Two", "", true⟩] ⟨1, "One", "s1"⟩ [⟨2, "Two", "s2"⟩]
    { message := "API key leaked", status := some 403 }
    (by decide) (by decide) (by decide)).2.1

/-- C7: a chapter whose retries exhaust with transient errors throws the
chapter-carrying exhaustion error; the loop then persists only that chapter
as failed with `"Generation failed. Please retry."` (no alert, no fatal
flag) and continues with the remaining chapters; the failure write touches
no other chapter.  Failures are data (`Except` values) handled inside the
loop, never escaping the pipeline. -/
theorem C7_transient_isolation :
    (∀ (gen : Nat → GenOutcome) (n : Nat) (e₀ e₁ e₂ : GenError),
      gen 0 = GenOutcome.err e₀ → isFatalError e₀ = false →
      gen 1 = GenOutcome.err e₁ → isFatalError e₁ = false →
      gen 2 = GenOutcome.err e₂ → isFatalError e₂ = false →
      writeChapter gen n = ⟨Except.error (failedChapterError n), [2000, 4000], 3⟩) ∧
    (∀ (gen : Nat → Nat → GenOutcome) (pid : String) (now : Nat) (s : PState)
      (cc : List ChapterContent) (ch : ChapterOutline) (rest : List ChapterOutline)
      (e : GenError) (sl : List Nat) (k : Nat),
      writeChapter (gen ch.chapterNumber) ch.chapterNumber = ⟨Except.error e, sl, k⟩ →
      appIsFatal e = false →
      shouldSkip cc ch.chapterNumber = false →
      genLoop gen pid now (ch :: rest) s cc false =
        genLoop gen pid now rest
          { s with
            invoked := s.invoked ++ [ch.chapterNumber],
            sleeps := s.sleeps ++ sl,
            projects :=
              applyFailure s.projects pid ch.chapterNumber "Generation failed. Please retry." }
          cc false) ∧
    (∀ (store : List BookProject) (pid : String) (n : Nat) (content : String) (m : Nat),
      (m == n) = false →
      chapContent (applyFailure store pid n content) pid m = chapContent store pid m) := by
  refine ⟨?_, ?_, ?_⟩
  · intro gen n e₀ e₁ e₂ h0 hf0 h1 hf1 h2 hf2
    exact writeChapter_exhausted gen n e₀ e₁ e₂ h0 hf0 h1 hf1 h2 hf2
  · intro gen pid now s cc ch rest e sl k hw hf hs
    rw [genLoop]
    simp only [hs, Bool.false_eq_true, if_false, hw, hf]
  · intro store pid n content m h
    exact chapContent_applyFailure_ne store pid n content m h

/-- C7 witness: chapter 1 exhausts its retries at a concrete input, is
marked with the transient placeholder, and chapter 2 is still attempted
and succeeds. -/
theorem C7_transient_isolation_witness :
    writeChapter (genMixed 1) 1 = ⟨Except.error (failedChapterError 1), [2000, 4000], 3⟩ ∧
    appIsFatal (failedChapterError 1) = false ∧
    shouldSkip [⟨1, "One", "", true⟩, ⟨2, "Two", "", true⟩] 1 = false ∧
    genLoop genMixed "p" 0 [⟨1, "One", "s1"⟩, ⟨2, "Two", "s2"⟩]
      (sampleState [sampleProject [⟨1, "One", "", true⟩, ⟨2, "Two", "", true⟩]
        [⟨1, "One", "s1"⟩, ⟨2, "Two", "s2"⟩]])
      [⟨1, "One", "", true⟩, ⟨2, "Two", "", true⟩] false =
      genLoop genMixed "p" 0 [⟨2, "Two", "s2"⟩]
        { sampleState [sampleProject [⟨1, "One", "", true⟩, ⟨2, "Two", "", true⟩]
            [⟨1, "One", "s1"⟩, ⟨2, "Two", "s2"⟩]] with
          invoked := [] ++ [1],
          sleeps := [] ++ [2000, 4000],
          projects :=
            applyFailure
              (sampleState [sampleProject [⟨1, "One", "", true⟩, ⟨2, "Two", "", true⟩]
                [⟨1, "One", "s1"⟩, ⟨2, "Two", "s2"⟩]]).projects
              "p" 1 "Generation failed. Please retry." }
        [⟨1, "One", "", true⟩, ⟨2, "Two", "", true⟩] false ∧
    (genLoop genMixed "p" 0 [⟨1, "One", "s1"⟩, ⟨2, "Two", "s2"⟩]
      (sampleState [sampleProject [⟨1, "One", "", true⟩, ⟨2, "Two", "", true⟩]
        [⟨1, "One", "s1"⟩, ⟨2, "Two", "s2"⟩]])
      [⟨1, "One", "", true⟩, ⟨2, "Two", "", true⟩] false).invoked = [1, 2] ∧
    chapContent
      (genLoop genMixed "p" 0 [⟨1, "One", "s1"⟩, ⟨2, "Two", "s2"⟩]
        (sampleState [sampleProject [⟨1, "One", "", true⟩, ⟨2, "Two", "", true⟩]
          [⟨1, "One", "s1"⟩, ⟨2, "Two", "s2"⟩]])
        [⟨1, "One", "", true⟩, ⟨2, "Two", "", true⟩] false).projects "p" 2 =
      some "fresh content" := by
  refine ⟨by decide, by decide, by decide, ?_, by decide, by decide⟩
  exact C7_transient_isolation.2.1 genMixed "p" 0
    (sampleState [sampleProject [⟨1, "One", "", true⟩, ⟨2, "Two", "", true⟩]
      [⟨1, "One", "s1"⟩, ⟨2, "Two", "s2"⟩]])
    [⟨1, "One", "", true⟩, ⟨2, "Two", "", true⟩] ⟨1, "One", "s1"⟩ [⟨2, "Two", "s2"⟩]
    (failedChapterError 1) [2000, 4000] 3 (by decide) (by decide) (by decide)

/-- C9 counterexample: a response with absent text is returned as success
`""` after a single call — it is not classified transient and not retried —
and the chapter then ends the run with `isGenerating = false` and empty
content, i.e. a successful transition with empty content. -/
theorem C9_counterexample :
    writeChapter (genEmptyText 1) 1 = ⟨Except.ok "", [], 1⟩ ∧
    findChapter
      (startBookGeneration true genEmptyText 7
        (sampleState [sampleProject [] [⟨1, "One", "s1"⟩]]) "p").projects "p" 1 =
      some ⟨1, "One", "", false⟩ := by
  decide

/-- C9 (amended): only thrown errors are classified and retried; any
response — even with empty or absent text — returns immediately as success
with `response.text || ""`, so a chapter can complete with empty content.
A thrown transient error, by contrast, does lead to at least a second
call.  An empty-content chapter is treated as not done by the next run's
skip check. -/
theorem C9_empty_response_success :
    (∀ (gen : Nat → GenOutcome) (n : Nat) (t : Option String),
      gen 0 = GenOutcome.ok t → writeChapter gen n = ⟨Except.ok (t.getD ""), [], 1⟩) ∧
    (∀ (gen : Nat → GenOutcome) (n : Nat) (e : GenError),
      gen 0 = GenOutcome.err e → isFatalError e = false →
      2 ≤ (writeChapter gen n).calls) ∧
    (∀ (cc : List ChapterContent) (n : Nat) (x : ChapterContent),
      cc.find? (fun c => c.chapterNumber == n) = some x → x.content = "" →
      shouldSkip cc n = false) := by
  refine ⟨?_, ?_, ?_⟩
  · intro gen n t hg
    exact writeChapter_first_ok gen n t hg
  · intro gen n e hg hf
    rw [writeChapter, maxAttempts, writeChapterAux, hg]
    simp only [hf, Bool.false_eq_true, if_false, maxAttempts]
    norm_num
    have := writeChapterAux_calls_pos gen n 2 1 (by norm_num)
    omega
  · intro cc n x hfind hcontent
    unfold shouldSkip
    rw [hfind]
    simp [hcontent]

/-- C9 witness: concrete empty response and concrete transient error. -/
theorem C9_empty_response_success_witness :
    genEmptyText 1 0 = GenOutcome.ok none ∧
    writeChapter (genEmptyText 1) 5 = ⟨Except.ok "", [], 1⟩ ∧
    genNetwork 0 = GenOutcome.err { message := "network error", status := none } ∧
    2 ≤ (writeChapter genNetwork 5).calls ∧
    shouldSkip [⟨3, "Three", "", false⟩] 3 = false := by
  refine ⟨by decide, ?_, by decide, ?_, ?_⟩
  · exact C9_empty_response_success.1 (genEmptyText 1) 5 none (by decide)
  · exact C9_empty_response_success.2.1 genNetwork 5
      { message := "network error", status := none } (by decide) (by decide)
  · exact C9_empty_response_success.2.2 [⟨3, "Three", "", false⟩] 3 ⟨3, "Three", "", false⟩
      (by decide) (by decide)

/-- C2 (code evidence at the failing input): a chapter previously marked
failed holds the non-empty placeholder `"Generation failed. Please retry."`
with `isGenerating = false`, so the skip check of `App.tsx` line 154 treats
it exactly like a completed chapter: re-running the pipeline never invokes
the generator for it and leaves the placeholder in place, even though the
backend would now succeed. -/
theorem C2_failed_chapter_skipped :
    shouldSkip [⟨1, "One", "Generation failed. Please retry.", false⟩] 1 = true ∧
    (startBookGeneration true genFresh 7
      (sampleState [sampleProject [⟨1, "One", "Generation failed. Please retry.", false⟩]
        [⟨1, "One", "s1"⟩]]) "p").invoked = [] ∧
    chapContent
      (startBookGeneration true genFresh 7
        (sampleState [sampleProject [⟨1, "One", "Generation failed. Please retry.", false⟩]
          [⟨1, "One", "s1"⟩]]) "p").projects "p" 1 =
      some "Generation failed. Please retry." := by
  decide

/-- C3 counterexample: a run starting from a 3-entry stored chapter array
under a 5-chapter outline keeps the 3-entry array — no reconciliation
happens: `initializeChapters` returns the prior array untouched, the run
invokes the generator for the outline chapters 4 and 5 anyway, and their
results are dropped by the per-chapter merge (no 4th or 5th entry exists
afterwards). -/
theorem C3_counterexample :
    (initializeChapters
      (sampleProject [⟨1, "a", "done1", false⟩, ⟨2, "b", "done2", false⟩, ⟨3, "c", "done3", false⟩]
        [⟨1, "a", "s"⟩, ⟨2, "b", "s"⟩, ⟨3, "c", "s"⟩, ⟨4, "d", "s"⟩, ⟨5, "e", "s"⟩])
      (sampleOutline [⟨1, "a", "s"⟩, ⟨2, "b", "s"⟩, ⟨3, "c", "s"⟩, ⟨4, "d", "s"⟩, ⟨5, "e", "s"⟩])).length = 3 ∧
    ((findProject
      (startBookGeneration true genFresh 7
        (sampleState [sampleProject
          [⟨1, "a", "done1", false⟩, ⟨2, "b", "done2", false⟩, ⟨3, "c", "done3", false⟩]
          [⟨1, "a", "s"⟩, ⟨2, "b", "s"⟩, ⟨3, "c", "s"⟩, ⟨4, "d", "s"⟩, ⟨5, "e", "s"⟩]]) "p").projects
      "p").map fun p => p.chapters.length) = some 3 ∧
    (startBookGeneration true genFresh 7
      (sampleState [sampleProject
        [⟨1, "a", "done1", false⟩, ⟨2, "b", "done2", false⟩, ⟨3, "c", "done3", false⟩]
        [⟨1, "a", "s"⟩, ⟨2, "b", "s"⟩, ⟨3, "c", "s"⟩, ⟨4, "d", "s"⟩, ⟨5, "e", "s"⟩]]) "p").invoked =
      [4, 5] ∧
    chapContent
      (startBookGeneration true genFresh 7
        (sampleState [sampleProject
          [⟨1, "a", "done1", false⟩, ⟨2, "b", "done2", false⟩, ⟨3, "c", "done3", false⟩]
          [⟨1, "a", "s"⟩, ⟨2, "b", "s"⟩, ⟨3, "c", "s"⟩, ⟨4, "d", "s"⟩, ⟨5, "e", "s"⟩]]) "p").projects
      "p" 4 = none := by
  decide

/-- C3 (amended): at run start the chapter array is initialized from the
outline only when the stored array is empty — every outline chapter then
gets an entry with empty content and the generating flag set; a non-empty
prior array is used exactly as it is, with no reconciliation by chapter
number (nothing added, nothing dropped). -/
theorem C3_initialization :
    (∀ (p : BookProject) (o : BookOutline), p.chapters = [] →
      ((initializeChapters p o).map (fun c => c.chapterNumber) =
          o.chapters.map (fun c => c.chapterNumber) ∧
        ∀ c ∈ initializeChapters p o, c.content = "" ∧ c.isGenerating = true)) ∧
    (∀ (p : BookProject) (o : BookOutline), p.chapters ≠ [] →
      initializeChapters p o = p.chapters) := by
  constructor
  · intro p o h
    unfold initializeChapters
    rw [h]
    simp only [List.length_nil, Nat.lt_irrefl, if_false]
    constructor
    · rw [List.map_map]
      rfl
    · intro c hc
      rw [List.mem_map] at hc
      obtain ⟨a, _, rfl⟩ := hc
      exact ⟨rfl, rfl⟩
  · intro p o h
    unfold initializeChapters
    rw [if_pos]
    exact List.length_pos.mpr h

/-- C3 witness: both initialization modes at concrete inputs. -/
theorem C3_initialization_witness :
    (sampleProject [] [⟨1, "a", "s"⟩, ⟨2, "b", "s"⟩]).chapters = [] ∧
    (initializeChapters (sampleProject [] [⟨1, "a", "s"⟩, ⟨2, "b", "s"⟩])
        (sampleOutline [⟨1, "a", "s"⟩, ⟨2, "b", "s"⟩])).map (fun c => c.chapterNumber) =
      (sampleOutline [⟨1, "a", "s"⟩, ⟨2, "b", "s"⟩]).chapters.map (fun c => c.chapterNumber) ∧
    (sampleProject [⟨1, "a", "x", false⟩] [⟨1, "a", "s"⟩]).chapters ≠ [] ∧
    initializeChapters (sampleProject [⟨1, "a", "x", false⟩] [⟨1, "a", "s"⟩])
        (sampleOutline [⟨1, "a", "s"⟩]) =
      (sampleProject [⟨1, "a", "x", false⟩] [⟨1, "a", "s"⟩]).chapters := by
  refine ⟨by decide, ?_, by decide, ?_⟩
  · exact (C3_initialization.1 (sampleProject [] [⟨1, "a", "s"⟩, ⟨2, "b", "s"⟩])
      (sampleOutline [⟨1, "a", "s"⟩, ⟨2, "b", "s"⟩]) (by decide)).1
  · exact C3_initialization.2 (sampleProject [⟨1, "a", "x", false⟩] [⟨1, "a", "s"⟩])
      (sampleOutline [⟨1, "a", "s"⟩]) (by decide)

/-- C4 counterexample: with a run already recorded as active for project
`p` (`generatingProjectId = some "p"`), a new start request for `p` is not
rejected: the pipeline proceeds and invokes the generator, and nothing is
reported to the caller. -/
theorem C4_counterexample :
    (startBookGeneration true genFresh 7
      { sampleState [sampleProject [] [⟨1, "One", "s1"⟩]] with
        generatingProjectId := some "p" } "p").invoked = [1] ∧
    (startBookGeneration true genFresh 7
      { sampleState [sampleProject [] [⟨1, "One", "s1"⟩]] with
        generatingProjectId := some "p" } "p").alerts = [] := by
  decide

/-- C4 (amended): `startBookGeneration` performs no admission check — for
an admitted request (project found, outline present) its behaviour is
identical whatever run is recorded as active, so a second start for the
same project proceeds instead of being rejected and nothing is reported;
the only guard is the editor's auto-start effect, which silently declines
to fire while `generatingProjectId` equals the project's id. -/
theorem C4_no_admission_guard :
    (∀ (avail : Bool) (gen : Nat → Nat → GenOutcome) (now : Nat) (s : PState)
      (pid : String) (g : Option String) (project : BookProject) (outline : BookOutline),
      s.projects.find? (fun p => p.id == pid) = some project →
      project.outline = some outline →
      startBookGeneration avail gen now { s with generatingProjectId := g } pid =
        startBookGeneration avail gen now s pid) ∧
    (∀ (currentStep chaptersLen : Nat) (hasOutline isProcessing hasError : Bool)
      (gpid : Option String) (pid : String),
      isGeneratingGlobalFlag gpid pid = true →
      autoStartCondition currentStep hasOutline chaptersLen isProcessing
        (isGeneratingGlobalFlag gpid pid) hasError = false) := by
  constructor
  · intro avail gen now s pid g project outline hfind ho
    simp only [startBookGeneration, hfind, ho]
  · intro currentStep chaptersLen hasOutline isProcessing hasError gpid pid h
    rw [h]
    unfold autoStartCondition
    simp

/-- C4 witness: the admitted-run independence and the silent auto-start
guard at concrete inputs. -/
theorem C4_no_admission_guard_witness :
    (sampleState [sampleProject [] [⟨1, "One", "s1"⟩]]).projects.find?
      (fun p => p.id == "p") = some (sampleProject [] [⟨1, "One", "s1"⟩]) ∧
    (sampleProject [] [⟨1, "One", "s1"⟩]).outline =
      some (sampleOutline [⟨1, "One", "s1"⟩]) ∧
    startBookGeneration true genFresh 7
      { sampleState [sampleProject [] [⟨1, "One", "s1"⟩]] with
        generatingProjectId := some "p" } "p" =
      startBookGeneration true genFresh 7
        (sampleState [sampleProject [] [⟨1, "One", "s1"⟩]]) "p" ∧
    isGeneratingGlobalFlag (some "p") "p" = true ∧
    autoStartCondition 2 true 0 false (isGeneratingGlobalFlag (some "p") "p") false =
      false := by
  refine ⟨by decide, by decide, ?_, by decide, ?_⟩
  · exact C4_no_admission_guard.1 true genFresh 7
      (sampleState [sampleProject [] [⟨1, "One", "s1"⟩]]) "p" (some "p")
      (sampleProject [] [⟨1, "One", "s1"⟩]) (sampleOutline [⟨1, "One", "s1"⟩])
      (by decide) (by decide)
  · exact C4_no_admission_guard.2 2 0 true false false (some "p") "p" (by decide)

/-- Unfolding of an admitted run: project found, outline present. -/
theorem startBookGeneration_eq (avail : Bool) (gen : Nat → Nat → GenOutcome) (now : Nat)
    (s : PState) (pid : String) (p : BookProject) (o : BookOutline)
    (hfind : s.projects.find? (fun q => q.id == pid) = some p)
    (ho : p.outline = some o) :
    startBookGeneration avail gen now s pid =
      releaseWakeLock
        { genLoop gen pid now o.chapters
            { requestWakeLock avail { s with generatingProjectId := some pid } with
              projects :=
                initialPersist
                  (requestWakeLock avail { s with generatingProjectId := some pid }).projects
                  p o }
            (initializeChapters p o) false with
          generatingProjectId := none } := by
  simp only [startBookGeneration, hfind, ho]

/-- C6: a chapter whose stored result is completed (non-empty content, not
generating) is skipped by every later run — the generator is never invoked
for it and its stored content is untouched — while a chapter left with a
stale `isGenerating = true` flag fails the skip check and is re-attempted
when the loop reaches it. -/
theorem C6_resumability :
    (∀ (avail : Bool) (gen : Nat → Nat → GenOutcome) (now : Nat) (s : PState)
      (pid : String) (p : BookProject) (o : BookOutline) (n : Nat) (entry : ChapterContent),
      s.projects.find? (fun q => q.id == pid) = some p →
      p.outline = some o →
      p.chapters ≠ [] →
      p.chapters.find? (fun c => c.chapterNumber == n) = some entry →
      (entry.content == "") = false →
      entry.isGenerating = false →
      ((startBookGeneration avail gen now s pid).invoked.count n = s.invoked.count n ∧
        chapContent (startBookGeneration avail gen now s pid).projects pid n =
          some entry.content)) ∧
    (∀ (avail : Bool) (gen : Nat → Nat → GenOutcome) (now : Nat) (s : PState)
      (pid : String) (p : BookProject) (o : BookOutline) (ch : ChapterOutline)
      (rest : List ChapterOutline) (entry : ChapterContent),
      s.projects.find? (fun q => q.id == pid) = some p →
      p.outline = some o →
      p.chapters ≠ [] →
      o.chapters = ch :: rest →
      p.chapters.find? (fun c => c.chapterNumber == ch.chapterNumber) = some entry →
      entry.isGenerating = true →
      ch.chapterNumber ∈ (startBookGeneration avail gen now s pid).invoked) := by
  constructor
  · intro avail gen now s pid p o n entry hfind ho hne hfc hcontent hgen
    have hskip : shouldSkip p.chapters n = true := by
      unfold shouldSkip
      rw [hfc]
      simp [hcontent, hgen]
    have hlen : 0 < p.chapters.length := List.length_pos.mpr hne
    have hinit : initializeChapters p o = p.chapters := by
      unfold initializeChapters
      rw [if_pos hlen]
    have hcur : chapContent s.projects pid n = some entry.content := by
      unfold chapContent findChapter findProject
      rw [hfind]
      simp only [Option.some_bind, hfc, Option.map_some']
    have key : ∀ B : PState, B.projects = handleUpdateProject s.projects p →
        B.invoked = s.invoked →
        ((releaseWakeLock
            { genLoop gen pid now o.chapters B p.chapters false with
              generatingProjectId := none }).invoked.count n = s.invoked.count n ∧
          chapContent
            (releaseWakeLock
              { genLoop gen pid now o.chapters B p.chapters false with
                generatingProjectId := none }).projects pid n = some entry.content) := by
      intro B hBp hBi
      obtain ⟨hc1, hc2⟩ := genLoop_skip_frame gen pid now n o.chapters B p.chapters false hskip
      constructor
      · rw [(releaseWakeLock_parts _).2.1]
        show (genLoop gen pid now o.chapters B p.chapters false).invoked.count n =
          s.invoked.count n
        rw [hc1, hBi]
      · rw [(releaseWakeLock_parts _).1]
        show chapContent (genLoop gen pid now o.chapters B p.chapters false).projects pid n =
          some entry.content
        rw [hc2, hBp, chapContent_handleUpdate_self hfind n, hcur]
    rw [startBookGeneration_eq avail gen now s pid p o hfind ho, hinit]
    refine key _ ?_ ?_
    · show initialPersist
        (requestWakeLock avail { s with generatingProjectId := some pid }).projects p o =
        handleUpdateProject s.projects p
      rw [(requestWakeLock_parts _ _).1]
      unfold initialPersist
      rw [hinit]
    · exact (requestWakeLock_parts _ _).2.1
  · intro avail gen now s pid p o ch rest entry hfind ho hne hchap hfc hgen
    have hlen : 0 < p.chapters.length := List.length_pos.mpr hne
    have hinit : initializeChapters p o = p.chapters := by
      unfold initializeChapters
      rw [if_pos hlen]
    have hskip : shouldSkip p.chapters ch.chapterNumber = false := by
      unfold shouldSkip
      rw [hfc]
      simp [hgen]
    have key : ∀ B : PState,
        ch.chapterNumber ∈ (genLoop gen pid now o.chapters B p.chapters false).invoked := by
      intro B
      rw [hchap, genLoop]
      simp only [hskip, Bool.false_eq_true, if_false]
      cases hw : (writeChapter (gen ch.chapterNumber) ch.chapterNumber).result with
      | ok content =>
        simp only [hw]
        obtain ⟨t, ht⟩ := genLoop_invoked_mono gen pid now rest _ _ false
        rw [ht]
        simp
      | error e =>
        simp only [hw]
        by_cases hf : appIsFatal e = true
        · simp only [hf, if_true]
          obtain ⟨t, ht⟩ := genLoop_invoked_mono gen pid now rest _ _ true
          rw [ht]
          simp
        · simp only [Bool.not_eq_true] at hf
          simp only [hf, Bool.false_eq_true, if_false]
          obtain ⟨t, ht⟩ := genLoop_invoked_mono gen pid now rest _ _ false
          rw [ht]
          simp
    rw [startBookGeneration_eq avail gen now s pid p o hfind ho, hinit]
    rw [(releaseWakeLock_parts _).2.1]
    exact key _

/-- C6 witness: a completed chapter is untouched and never invoked, and a
stale generating chapter is re-attempted, at concrete inputs. -/
theorem C6_resumability_witness :
    (sampleState [sampleProject [⟨1, "One", "done one", false⟩, ⟨2, "Two", "", true⟩]
      [⟨1, "One", "s1"⟩, ⟨2, "Two", "s2"⟩]]).projects.find? (fun q => q.id == "p") =
      some (sampleProject [⟨1, "One", "done one", false⟩, ⟨2, "Two", "", true⟩]
        [⟨1, "One", "s1"⟩, ⟨2, "Two", "s2"⟩]) ∧
    (startBookGeneration true genFresh 7
      (sampleState [sampleProject [⟨1, "One", "done one", false⟩, ⟨2, "Two", "", true⟩]
        [⟨1, "One", "s1"⟩, ⟨2, "Two", "s2"⟩]]) "p").invoked.count 1 =
      (sampleState [sampleProject [⟨1, "One", "done one", false⟩, ⟨2, "Two", "", true⟩]
        [⟨1, "One", "s1"⟩, ⟨2, "Two", "s2"⟩]]).invoked.count 1 ∧
    chapContent
      (startBookGeneration true genFresh 7
        (sampleState [sampleProject [⟨1, "One", "done one", false⟩, ⟨2, "Two", "", true⟩]
          [⟨1, "One", "s1"⟩, ⟨2, "Two", "s2"⟩]]) "p").projects "p" 1 = some "done one" ∧
    (2 : Nat) ∈ (startBookGeneration true genFresh 7
      (sampleState [sampleProject [⟨1, "One", "done one", false⟩, ⟨2, "Two", "stale", true⟩]
        [⟨2, "Two", "s2"⟩]]) "p").invoked := by
  refine ⟨by decide, ?_, ?_, ?_⟩
  · exact (C6_resumability.1 true genFresh 7
      (sampleState [sampleProject [⟨1, "One", "done one", false⟩, ⟨2, "Two", "", true⟩]
        [⟨1, "One", "s1"⟩, ⟨2, "Two", "s2"⟩]]) "p"
      (sampleProject [⟨1, "One", "done one", false⟩, ⟨2, "Two", "", true⟩]
        [⟨1, "One", "s1"⟩, ⟨2, "Two", "s2"⟩])
      (sampleOutline [⟨1, "One", "s1"⟩, ⟨2, "Two", "s2"⟩]) 1 ⟨1, "One", "done one", false⟩
      (by decide) (by decide) (by decide) (by decide) (by decide) (by decide)).1
  · exact (C6_resumability.1 true genFresh 7
      (sampleState [sampleProject [⟨1, "One", "done one", false⟩, ⟨2, "Two", "", true⟩]
        [⟨1, "One", "s1"⟩, ⟨2, "Two", "s2"⟩]]) "p"
      (sampleProject [⟨1, "One", "done one", false⟩, ⟨2, "Two", "", true⟩]
        [⟨1, "One", "s1"⟩, ⟨2, "Two", "s2"⟩])
      (sampleOutline [⟨1, "One", "s1"⟩, ⟨2, "Two", "s2"⟩]) 1 ⟨1, "One", "done one", false⟩
      (by decide) (by decide) (by decide) (by decide) (by decide) (by decide)).2
  · exact C6_resumability.2 true genFresh 7
      (sampleState [sampleProject [⟨1, "One", "done one", false⟩, ⟨2, "Two", "stale", true⟩]
        [⟨2, "Two", "s2"⟩]]) "p"
      (sampleProject [⟨1, "One", "done one", false⟩, ⟨2, "Two", "stale", true⟩]
        [⟨2, "Two", "s2"⟩])
      (sampleOutline [⟨2, "Two", "s2"⟩]) ⟨2, "Two", "s2"⟩ [] ⟨2, "Two", "stale", true⟩
      (by decide) (by decide) (by decide) (by decide) (by decide) (by decide)

theorem releaseWakeLock_some (s : PState) (h : s.wakeLock = some ()) :
    releaseWakeLock s = { s with wakeLock := none, releases := s.releases + 1 } := by
  unfold releaseWakeLock
  rw [h]

theorem releaseWakeLock_of_none (s : PState) (h : s.wakeLock = none) :
    releaseWakeLock s = s := by
  unfold releaseWakeLock
  rw [h]

/-- Final release accounting when a sentinel is held at loop entry. -/
theorem run_release_some (gen : Nat → Nat → GenOutcome) (pid : String) (now : Nat)
    (l : List ChapterOutline) (cc : List ChapterContent) (B : PState)
    (h : B.wakeLock = some ()) :
    (releaseWakeLock
      { genLoop gen pid now l B cc false with generatingProjectId := none }).wakeLock = none ∧
    (releaseWakeLock
      { genLoop gen pid now l B cc false with generatingProjectId := none }).acquires =
      B.acquires ∧
    (releaseWakeLock
      { genLoop gen pid now l B cc false with generatingProjectId := none }).releases =
      B.releases + 1 := by
  obtain ⟨-, hXw, hXa, hXr⟩ := genLoop_run_fields gen pid now l B cc false
  have hYw : ({ genLoop gen pid now l B cc false with
      generatingProjectId := none } : PState).wakeLock = some () := by
    show (genLoop gen pid now l B cc false).wakeLock = some ()
    rw [hXw, h]
  rw [releaseWakeLock_some _ hYw]
  refine ⟨rfl, ?_, ?_⟩
  · show (genLoop gen pid now l B cc false).acquires = B.acquires
    exact hXa
  · show (genLoop gen pid now l B cc false).releases + 1 = B.releases + 1
    rw [hXr]

/-- Final release accounting when no sentinel is held at loop entry. -/
theorem run_release_none (gen : Nat → Nat → GenOutcome) (pid : String) (now : Nat)
    (l : List ChapterOutline) (cc : List ChapterContent) (B : PState)
    (h : B.wakeLock = none) :
    (releaseWakeLock
      { genLoop gen pid now l B cc false with generatingProjectId := none }).wakeLock = none ∧
    (releaseWakeLock
      { genLoop gen pid now l B cc false with generatingProjectId := none }).acquires =
      B.acquires ∧
    (releaseWakeLock
      { genLoop gen pid now l B cc false with generatingProjectId := none }).releases =
      B.releases := by
  obtain ⟨-, hXw, hXa, hXr⟩ := genLoop_run_fields gen pid now l B cc false
  have hYw : ({ genLoop gen pid now l B cc false with
      generatingProjectId := none } : PState).wakeLock = none := by
    show (genLoop gen pid now l B cc false).wakeLock = none
    rw [hXw, h]
  rw [releaseWakeLock_of_none _ hYw]
  refine ⟨hYw, ?_, ?_⟩
  · show (genLoop gen pid now l B cc false).acquires = B.acquires
    exact hXa
  · show (genLoop gen pid now l B cc false).releases = B.releases
    exact hXr

/-- C10: starting from a state holding no sentinel, every run ends holding
no sentinel and performs exactly as many releases as successful acquires
(one when the capability is available, zero otherwise — release is never
skipped on any exit path, fatal aborts included, and never doubled); and
the run's observable outcome (store, invocations, alerts, sleeps) is
identical whether or not the wake-lock capability is available, so
wake-lock unavailability never fails the run. -/
theorem C10_wake_lock (avail : Bool) (gen : Nat → Nat → GenOutcome) (now : Nat)
    (s : PState) (pid : String) (hwl : s.wakeLock = none) :
    (startBookGeneration avail gen now s pid).wakeLock = none ∧
    (startBookGeneration avail gen now s pid).acquires + s.releases =
      s.acquires + (startBookGeneration avail gen now s pid).releases ∧
    (startBookGeneration avail gen now s pid).acquires ≤ s.acquires + 1 ∧
    (startBookGeneration false gen now s pid).projects =
      (startBookGeneration true gen now s pid).projects ∧
    (startBookGeneration false gen now s pid).invoked =
      (startBookGeneration true gen now s pid).invoked ∧
    (startBookGeneration false gen now s pid).alerts =
      (startBookGeneration true gen now s pid).alerts ∧
    (startBookGeneration false gen now s pid).sleeps =
      (startBookGeneration true gen now s pid).sleeps := by
  cases hfind : s.projects.find? (fun q => q.id == pid) with
  | none =>
    have h : ∀ av : Bool, startBookGeneration av gen now s pid = s := by
      intro av
      simp only [startBookGeneration, hfind]
    rw [h avail, h false, h true]
    exact ⟨hwl, rfl, by omega, rfl, rfl, rfl, rfl⟩
  | some p =>
    cases ho : p.outline with
    | none =>
      have h : ∀ av : Bool, startBookGeneration av gen now s pid = s := by
        intro av
        simp only [startBookGeneration, hfind, ho]
      rw [h avail, h false, h true]
      exact ⟨hwl, rfl, by omega, rfl, rfl, rfl, rfl⟩
    | some o =>
      have hrun : ∀ av : Bool, startBookGeneration av gen now s pid =
          releaseWakeLock
            { genLoop gen pid now o.chapters
                { requestWakeLock av { s with generatingProjectId := some pid } with
                  projects :=
                    initialPersist
                      (requestWakeLock av { s with generatingProjectId := some pid }).projects
                      p o }
                (initializeChapters p o) false with
              generatingProjectId := none } :=
        fun av => startBookGeneration_eq av gen now s pid p o hfind ho
      have hsome := run_release_some gen pid now o.chapters (initializeChapters p o)
        { requestWakeLock true { s with generatingProjectId := some pid } with
          projects :=
            initialPersist
              (requestWakeLock true { s with generatingProjectId := some pid }).projects
              p o } rfl
      have hnone := run_release_none gen pid now o.chapters (initializeChapters p o)
        { requestWakeLock false { s with generatingProjectId := some pid } with
          projects :=
            initialPersist
              (requestWakeLock false { s with generatingProjectId := some pid }).projects
              p o } hwl
      refine ⟨?_, ?_, ?_, ?_, ?_, ?_, ?_⟩
      · rw [hrun avail]
        cases avail with
        | true => exact hsome.1
        | false => exact hnone.1
      · rw [hrun avail]
        cases avail with
        | true =>
          rw [hsome.2.1, hsome.2.2]
          show s.acquires + 1 + s.releases = s.acquires + (s.releases + 1)
          omega
        | false =>
          rw [hnone.2.1, hnone.2.2]
          show s.acquires + s.releases = s.acquires + s.releases
          rfl
      · rw [hrun avail]
        cases avail with
        | true =>
          rw [hsome.2.1]
          show s.acquires + 1 ≤ s.acquires + 1
          omega
        | false =>
          rw [hnone.2.1]
          show s.acquires ≤ s.acquires + 1
          omega
      all_goals {
        rw [hrun false, hrun true]
        obtain ⟨e1, e2, e3, e4⟩ :=
          genLoop_congr gen pid now o.chapters (initializeChapters p o) false
            { requestWakeLock false { s with generatingProjectId := some pid } with
              projects :=
                initialPersist
                  (requestWakeLock false { s with generatingProjectId := some pid }).projects
                  p o }
            { requestWakeLock true { s with generatingProjectId := some pid } with
              projects :=
                initialPersist
                  (requestWakeLock true { s with generatingProjectId := some pid }).projects
                  p o }
            rfl rfl rfl rfl
        first
        | (rw [(releaseWakeLock_parts _).1, (releaseWakeLock_parts _).1]; exact e1)
        | (rw [(releaseWakeLock_parts _).2.1, (releaseWakeLock_parts _).2.1]; exact e2)
        | (rw [(releaseWakeLock_parts _).2.2.1, (releaseWakeLock_parts _).2.2.1]; exact e3)
        | (rw [(releaseWakeLock_parts _).2.2.2.1, (releaseWakeLock_parts _).2.2.2.1]; exact e4)
      }

/-- C10 witness: wake-lock accounting of a concrete fatal-abort run and a
concrete successful run, with and without the capability. -/
theorem C10_wake_lock_witness :
    (sampleState [sampleProject [] [⟨1, "One", "s1"⟩]]).wakeLock = none ∧
    (startBookGeneration true genLeaked 7
      (sampleState [sampleProject [] [⟨1, "One", "s1"⟩]]) "p").wakeLock = none ∧
    (startBookGeneration true genLeaked 7
      (sampleState [sampleProject [] [⟨1, "One", "s1"⟩]]) "p").acquires +
        (sampleState [sampleProject [] [⟨1, "One", "s1"⟩]]).releases =
      (sampleState [sampleProject [] [⟨1, "One", "s1"⟩]]).acquires +
        (startBookGeneration true genLeaked 7
          (sampleState [sampleProject [] [⟨1, "One", "s1"⟩]]) "p").releases ∧
    (startBookGeneration false genFresh 7
      (sampleState [sampleProject [] [⟨1, "One", "s1"⟩]]) "p").projects =
      (startBookGeneration true genFresh 7
        (sampleState [sampleProject [] [⟨1, "One", "s1"⟩]]) "p").projects := by
  refine ⟨by decide, ?_, ?_, ?_⟩
  · exact (C10_wake_lock true genLeaked 7
      (sampleState [sampleProject [] [⟨1, "One", "s1"⟩]]) "p" (by decide)).1
  · exact (C10_wake_lock true genLeaked 7
      (sampleState [sampleProject [] [⟨1, "One", "s1"⟩]]) "p" (by decide)).2.1
  · exact (C10_wake_lock true genFresh 7
      (sampleState [sampleProject [] [⟨1, "One", "s1"⟩]]) "p" (by decide)).2.2.2.1

/-- C8 counterexample: the run-start persistence write (`App.tsx` line 145)
replaces the whole stored project by the record built from the snapshot
captured at run entry, so a title updated in the store after the snapshot
was taken (the capture and the write are separated by the wake-lock await
and by React's closure over an older `projects` value) is overwritten —
the stored title reverts from `"New Title"` to the snapshot's
`"Old Title"`, refuting that every pipeline write leaves other fields
untouched. -/
theorem C8_counterexample :
    ((findProject c8Store "p").map fun q => q.title) = some "New Title" ∧
    c8Snapshot.title = "Old Title" ∧
    ((findProject (initialPersist c8Store c8Snapshot (sampleOutline [⟨1, "One", "s1"⟩]))
      "p").map fun q => q.title) = some "Old Title" := by
  decide

/-- C8 (amended): the per-chapter persistence writes are merges into the
latest store — they preserve every project's title, id, sources, outline
and step, preserve the contents of every chapter other than the processed
one, and set the processed chapter's content (the failure write also
preserves `lastModified`) — so a concurrent title update made while a
chapter result is persisted survives.  The run-start write, by contrast,
replaces the whole matched project with the run-entry snapshot. -/
theorem C8_chapter_writes_merge :
    (∀ (store : List BookProject) (pid : String) (n : Nat) (content : String) (now : Nat),
      (applySuccess store pid n content now).map (fun q => q.title) =
        store.map (fun q => q.title) ∧
      (applySuccess store pid n content now).map (fun q => q.id) =
        store.map (fun q => q.id) ∧
      (applySuccess store pid n content now).map (fun q => q.sources) =
        store.map (fun q => q.sources) ∧
      (applySuccess store pid n content now).map (fun q => q.outline) =
        store.map (fun q => q.outline) ∧
      (applySuccess store pid n content now).map (fun q => q.currentStep) =
        store.map (fun q => q.currentStep)) ∧
    (∀ (store : List BookProject) (pid : String) (n : Nat) (content : String),
      (applyFailure store pid n content).map (fun q => q.title) =
        store.map (fun q => q.title) ∧
      (applyFailure store pid n content).map (fun q => q.lastModified) =
        store.map (fun q => q.lastModified)) ∧
    (∀ (store : List BookProject) (pid : String) (n : Nat) (content : String) (now m : Nat),
      (m == n) = false →
      chapContent (applySuccess store pid n content now) pid m = chapContent store pid m) ∧
    (∀ (store : List BookProject) (pid : String) (n : Nat) (content : String) (now : Nat)
      (x : ChapterContent),
      findChapter store pid n = some x →
      chapContent (applySuccess store pid n content now) pid n = some content) := by
  refine ⟨?_, ?_, ?_, ?_⟩
  · intro store pid n content now
    refine ⟨?_, ?_, ?_, ?_, ?_⟩ <;>
      (unfold applySuccess
       rw [List.map_map]
       congr 1
       funext q
       by_cases hq : (q.id == pid) = true
       · simp [Function.comp, hq]
       · simp only [Bool.not_eq_true] at hq
         simp [Function.comp, hq])
  · intro store pid n content
    refine ⟨?_, ?_⟩ <;>
      (unfold applyFailure
       rw [List.map_map]
       congr 1
       funext q
       by_cases hq : (q.id == pid) = true
       · simp [Function.comp, hq]
       · simp only [Bool.not_eq_true] at hq
         simp [Function.comp, hq])
  · intro store pid n content now m h
    exact chapContent_applySuccess_ne store pid n content now m h
  · intro store pid n content now x h
    exact chapContent_applySuccess_eq store pid n content now x h

/-- C8 witness: a title concurrently updated to `"New Title"` survives the
success write of chapter 2, which also lands its content. -/
theorem C8_chapter_writes_merge_witness :
    ((applySuccess c8ChapterStore "p" 2 "chapter two content" 9).map fun q => q.title) =
      (c8ChapterStore.map fun q => q.title) ∧
    findChapter c8ChapterStore "p" 2 = some ⟨2, "Two", "", true⟩ ∧
    chapContent (applySuccess c8ChapterStore "p" 2 "chapter two content" 9) "p" 2 =
      some "chapter two content" ∧
    ((findProject (applySuccess c8ChapterStore "p" 2 "chapter two content" 9) "p").map
      fun q => q.title) = some "New Title" := by
  refine ⟨?_, by decide, ?_, by decide⟩
  · exact (C8_chapter_writes_merge.1 c8ChapterStore "p" 2 "chapter two content" 9).1
  · exact C8_chapter_writes_merge.2.2.2 c8ChapterStore "p" 2 "chapter two content" 9
      ⟨2, "Two", "", true⟩ (by decide)
